import Mathlib

/-!
Verification of the Email repository (email_tool.py, email_example.py).

The mail dispatch engine `AsyncGmailTool.send_email` is embedded as a pure
function over an abstract network behaviour: each SMTP operation (connect,
starttls, login, send_message, quit) on each created connection either
succeeds or raises an exception, chosen by a `Net` oracle.  The function
returns the boolean outcome together with the trace of connection events
that occurred, mirroring the control flow of the Python source line by line
(outer try / inner try / except SMTPException / except Exception / finally).

The scheduler endpoints of email_example.py (`schedule_email`,
`cancel_scheduled_job`) are embedded over an explicit job table.
-/

/-- Exceptions distinguished by the source: `SMTPException` from aiosmtplib
(the transport-protocol fault class) versus any other `Exception`
(OSError from `open`, etc.). -/
inductive Exc where
  | smtp : Exc
  | other : Exc
deriving DecidableEq, Repr

/-- A file-system path, as a pathlib `Path`: a sequence of components.
`name` is the final component (the base name), as `Path.name` in Python. -/
structure FsPath where
  components : List String
deriving DecidableEq, Repr

/-- Python `Path.name`: the last path component (base name, not the full path). -/
def FsPath.name (p : FsPath) : String := p.components.getLastD ""

/-- A MIME part of the built message: either the single text body part
(`MIMEText(body, subtype, charset)`) or a binary attachment part
(`MIMEApplication(payload)` with a `Content-Disposition: attachment`
header carrying `filename`). -/
inductive MIMEPart where
  | text (body subtype charset : String) : MIMEPart
  | application (payload : List Nat) (filename : String) : MIMEPart
deriving DecidableEq, Repr

/-- The `MIMEMultipart` container built by `send_email`: From / To / Subject
headers plus the attached parts in order. -/
structure MIMEMultipart where
  fromAddr : String
  toHeader : String
  subject : String
  parts : List MIMEPart
deriving DecidableEq, Repr

/-- The `AsyncGmailTool` object: the four fields stored by `__init__`. -/
structure AsyncGmailTool where
  smtp_username : String
  smtp_password : String
  smtp_server : String
  smtp_port : Nat
deriving DecidableEq, Repr

/-- Default `smtp_server` argument of `AsyncGmailTool.__init__`. -/
def default_smtp_server : String := "smtp.gmail.com"

/-- Default `smtp_port` argument of `AsyncGmailTool.__init__`. -/
def default_smtp_port : Nat := 587

/-- `AsyncGmailTool.__init__` with both defaulted arguments left at their
defaults: it only stores the four fields. -/
def AsyncGmailTool.init (smtp_username smtp_password : String) : AsyncGmailTool :=
  ⟨smtp_username, smtp_password, default_smtp_server, default_smtp_port⟩

/-- The file system: maps a path to the bytes of the file, or `none` when
`open(path, "rb")` / `read()` raises (missing or unreadable file). -/
def FileSys : Type := FsPath → Option (List Nat)

/-- Reads the attachment loop of `send_email` (lines 111-120): for each path
in order, open and fully read the file (raising a non-SMTP exception if it
is missing or unreadable) and wrap it as a binary part whose
`Content-Disposition: attachment` filename is the base name of the path. -/
def attachParts (fs : FileSys) : List FsPath → Except Exc (List MIMEPart)
  | [] => .ok []
  | p :: rest =>
    match fs p with
    | none => .error Exc.other
    | some bytes =>
      match attachParts fs rest with
      | .error e => .error e
      | .ok tail => .ok (MIMEPart.application bytes (FsPath.name p) :: tail)

/-- Message construction phase of `send_email` (lines 100-120): the
multipart container with From/To/Subject headers, exactly one body part
`MIMEText(body, "html" if html else "plain", "utf-8")`, then one binary
part per attachment.  `attachments = none` is the Python `None`; a missing
or empty list skips the attachment loop. -/
def buildMessage (fs : FileSys) (smtp_username : String) (to_emails : List String)
    (subject body : String) (html : Bool) (attachments : Option (List FsPath)) :
    Except Exc MIMEMultipart :=
  let content_type := if html then "html" else "plain"
  let bodyPart := MIMEPart.text body content_type "utf-8"
  let attList := match attachments with
    | none => []
    | some l => l
  match attachParts fs attList with
  | .error e => .error e
  | .ok aparts =>
    .ok { fromAddr := smtp_username
          toHeader := String.intercalate ", " to_emails
          subject := subject
          parts := bodyPart :: aparts }

/-- The single `ssl.create_default_context()` object created per send,
identified by a tag; it is passed both as the primary connection
`tls_context` argument and to `starttls` on the fallback connection. -/
def sslContextId : Nat := 0

/-- Constructor arguments of an `aiosmtplib.SMTP(...)` call. -/
structure ConnParams where
  hostname : String
  port : Nat
  use_tls : Bool
  tls_context : Option Nat
  timeout : Nat
deriving DecidableEq, Repr

/-- Parameters of the primary connection (line 126): implicit TLS on 465
with the default TLS context and a 30 second timeout. -/
def primaryParams (server : String) : ConnParams :=
  ⟨server, 465, true, some sslContextId, 30⟩

/-- Parameters of the fallback connection (line 150): plaintext port 587,
no TLS at creation, 30 second timeout. -/
def fallbackParams (server : String) : ConnParams :=
  ⟨server, 587, false, none, 30⟩

/-- Observable events of a delivery attempt.  Connections are numbered in
creation order: 0 is the primary (port 465) connection, 1 the fallback
(port 587) connection.  An operation event records that the operation was
attempted on that connection (it may still have raised). -/
inductive Event where
  | created (k : Nat) (p : ConnParams)
  | connect (k : Nat)
  | starttls (k : Nat) (ctx : Nat)
  | login (k : Nat)
  | sendMessage (k : Nat)
  | quit (k : Nat)
deriving DecidableEq, Repr

/-- Whether an event is the creation of a connection object. -/
def Event.isCreated : Event → Bool
  | .created _ _ => true
  | _ => false

/-- Whether an event is a `quit` (graceful teardown). -/
def Event.isQuit : Event → Bool
  | .quit _ => true
  | _ => false

/-- The network oracle: for connection number `k`, the outcome of each SMTP
operation on it (`none` = succeeds, `some e` = raises `e`). -/
structure Net where
  connectRes : Nat → Option Exc
  starttlsRes : Nat → Option Exc
  loginRes : Nat → Option Exc
  sendRes : Nat → Option Exc
  quitRes : Nat → Option Exc

/-- One awaited SMTP operation: the event recording its attempt, paired
with its outcome under the network oracle. -/
def OpSpec : Type := Event × Option Exc

/-- Runs a straight-line sequence of awaited operations: the event of each operation
is recorded when it is attempted; the first raised exception aborts
the rest of the sequence. -/
def runOps : List OpSpec → List Event × Option Exc
  | [] => ([], none)
  | (ev, res) :: rest =>
    match res with
    | some e => ([ev], some e)
    | none =>
      match runOps rest with
      | (evs, r) => (ev :: evs, r)

/-- The awaited operations of the primary attempt (lines 136-141):
connect, login, send_message on connection 0. -/
def primaryOps (net : Net) : List OpSpec :=
  [(Event.connect 0, net.connectRes 0),
   (Event.login 0, net.loginRes 0),
   (Event.sendMessage 0, net.sendRes 0)]

/-- The awaited operations of the fallback attempt (lines 157-160):
connect, starttls with the same TLS context, login, send_message on
connection 1. -/
def fallbackOps (net : Net) : List OpSpec :=
  [(Event.connect 1, net.connectRes 1),
   (Event.starttls 1 sslContextId, net.starttlsRes 1),
   (Event.login 1, net.loginRes 1),
   (Event.sendMessage 1, net.sendRes 1)]

/-- Outcome of the primary attempt: `none` if all three operations
succeed, otherwise the first exception raised. -/
def primaryOutcome (net : Net) : Option Exc := (runOps (primaryOps net)).2

/-- Outcome of the fallback attempt. -/
def fallbackOutcome (net : Net) : Option Exc := (runOps (fallbackOps net)).2

/-- The `finally` block (lines 168-172): `await smtp.quit()` on the current
connection, with any exception it raises caught and discarded
(`except Exception: pass`) — both outcomes leave only the quit event. -/
def quitEvs (net : Net) (k : Nat) : List Event :=
  match net.quitRes k with
  | none => [Event.quit k]
  | some _ => [Event.quit k]

/-- The delivery phase of `send_email` (lines 122-172), i.e. everything
from connection creation through the inner try statement.  Returns
`.ok (outcome, events)` when the inner try statement completes normally
(primary success → `true`, generic non-SMTP fault → `false` via
`except Exception`, fallback success → `true`), and `.error (e, events)`
when an exception escapes the inner try statement (a fault raised inside
the `except SMTPException` fallback handler propagates past the `finally`
to the outer handler). -/
def deliverCore (cfg : AsyncGmailTool) (net : Net) :
    Except (Exc × List Event) (Bool × List Event) :=
  let created0 := Event.created 0 (primaryParams cfg.smtp_server)
  let evs0 := (runOps (primaryOps net)).1
  match (runOps (primaryOps net)).2 with
  | none =>
    .ok (true, created0 :: evs0 ++ quitEvs net 0)
  | some Exc.other =>
    .ok (false, created0 :: evs0 ++ quitEvs net 0)
  | some Exc.smtp =>
    let created1 := Event.created 1 (fallbackParams cfg.smtp_server)
    let evs1 := (runOps (fallbackOps net)).1
    match (runOps (fallbackOps net)).2 with
    | none =>
      .ok (true, created0 :: evs0 ++ (created1 :: evs1 ++ quitEvs net 1))
    | some e =>
      .error (e, created0 :: evs0 ++ (created1 :: evs1 ++ quitEvs net 1))

/-- The body of the outer try of `send_email` (lines 99-172): build the
message, then run the delivery phase; an exception from either stage
escapes as `.error`. -/
def sendEmailCore (cfg : AsyncGmailTool) (net : Net) (fs : FileSys)
    (to_emails : List String) (subject body : String) (html : Bool)
    (attachments : Option (List FsPath)) :
    Except (Exc × List Event) (Bool × List Event × MIMEMultipart) :=
  match buildMessage fs cfg.smtp_username to_emails subject body html attachments with
  | .error e => .error (e, [])
  | .ok msg =>
    match deliverCore cfg net with
    | .ok (b, evs) => .ok (b, evs, msg)
    | .error (e, evs) => .error (e, evs)

/-- Result of one `send_email` call: the returned boolean, the trace of
connection events, and the message that was built (if construction got
that far). -/
structure SendResult where
  result : Bool
  events : List Event
  message : Option MIMEMultipart
deriving DecidableEq, Repr

/-- `AsyncGmailTool.send_email` (lines 70-176): the outer
`except Exception` handler converts any escaping exception into `False`;
otherwise the inner outcome is returned. -/
def send_email (cfg : AsyncGmailTool) (net : Net) (fs : FileSys)
    (to_emails : List String) (subject body : String) (html : Bool)
    (attachments : Option (List FsPath)) : SendResult :=
  match sendEmailCore cfg net fs to_emails subject body html attachments with
  | .ok (b, evs, msg) => ⟨b, evs, some msg⟩
  | .error (_, evs) => ⟨false, evs, none⟩

/-- A scheduled job in the apscheduler table: the job identifier, the
resolved absolute run time, and the `send_email` keyword arguments stored
by `scheduler.add_job` in `schedule_email`. -/
structure Job where
  id : String
  run_date : Int
  to_emails : List String
  subject : String
  body : String
  html : Bool
deriving DecidableEq, Repr

/-- The pending-job table of the scheduler, plus the counter from which fresh
job identifiers are generated. -/
structure SchedulerState where
  jobs : List Job
  nextId : Nat
deriving DecidableEq, Repr

/-- `scheduler.add_job(...)`: allocates a fresh unique identifier, inserts
a pending job with the resolved run date and the send arguments, and
returns the job. -/
def add_job (st : SchedulerState) (run_date : Int) (to_emails : List String)
    (subject body : String) (html : Bool) : Job × SchedulerState :=
  let job : Job := ⟨"job" ++ toString st.nextId, run_date, to_emails, subject, body, html⟩
  (job, ⟨st.jobs ++ [job], st.nextId + 1⟩)

/-- `scheduler.get_job(job_id)`: the pending job with that identifier, or
`none` if absent. -/
def get_job (st : SchedulerState) (job_id : String) : Option Job :=
  st.jobs.find? (fun j => j.id == job_id)

/-- `scheduler.remove_job(job_id)`: removes the pending job with that
identifier from the table. -/
def remove_job (st : SchedulerState) (job_id : String) : SchedulerState :=
  ⟨st.jobs.filter (fun j => !(j.id == job_id)), st.nextId⟩

/-- The body of a `ScheduledEmailRequest`: send arguments plus the naive
`scheduled_time` and the timezone name. -/
structure ScheduledEmailRequest where
  to_emails : List String
  subject : String
  body : String
  html : Bool
  scheduled_time : Int
  timezone : String
deriving DecidableEq, Repr

/-- The timezone database consulted by `pytz.timezone`: the UTC offset of
a recognized timezone name, or `none` when the name is unrecognized (in
which case `pytz.timezone` raises `UnknownTimeZoneError`). -/
def TzDb : Type := String → Option Int

/-- An HTTP-level response of the adapter endpoints: a success body
(message plus optional job id), or an `HTTPException` with its status
code and detail string. -/
inductive ApiResponse where
  | success (message : String) (job_id : Option String)
  | httpError (status : Nat) (detail : String)
deriving DecidableEq, Repr

/-- Whether a status code is a client-error (4xx) response. -/
def isClientError (status : Nat) : Prop := 400 ≤ status ∧ status < 500

/-- The `/schedule-email` endpoint (email_example.py lines 211-250):
resolve the timezone with `pytz.timezone` (raising if unrecognized),
localize the naive time, add the job, and answer with the job id; the
surrounding `except Exception` turns any exception into an
`HTTPException(status_code=500, ...)`. -/
def schedule_email (tzdb : TzDb) (st : SchedulerState) (req : ScheduledEmailRequest) :
    ApiResponse × SchedulerState :=
  match tzdb req.timezone with
  | none =>
    (ApiResponse.httpError 500 ("Scheduling email failed: " ++ req.timezone), st)
  | some off =>
    let scheduled_time := req.scheduled_time - off
    let (job, st2) := add_job st scheduled_time req.to_emails req.subject req.body req.html
    (ApiResponse.success "Email successfully scheduled" (some job.id), st2)

/-- The `/cancel-scheduled-job/{job_id}` endpoint (email_example.py lines
318-326): 404 when `get_job` finds nothing, otherwise `remove_job` and a
success message. -/
def cancel_scheduled_job (st : SchedulerState) (job_id : String) :
    ApiResponse × SchedulerState :=
  match get_job st job_id with
  | none => (ApiResponse.httpError 404 "Task not found", st)
  | some _ => (ApiResponse.success "Task canceled" none, remove_job st job_id)

/-- A network oracle on which every operation succeeds. -/
def netOk : Net :=
  ⟨fun _ => none, fun _ => none, fun _ => none, fun _ => none, fun _ => none⟩

/-- A network oracle whose primary connection raises `SMTPException` on
connect and whose fallback connection behaves normally. -/
def netPrimarySmtpFail : Net :=
  { netOk with connectRes := fun k => if k = 0 then some Exc.smtp else none }

/-- A network oracle where the primary raises `SMTPException` and the
fallback login also raises. -/
def netBothFail : Net :=
  { netPrimarySmtpFail with loginRes := fun k => if k = 1 then some Exc.smtp else none }

/-- A file system with no readable file at all. -/
def fsEmpty : FileSys := fun _ => none

/-- A sample attachment path `docs/report.pdf`. -/
def pathReport : FsPath := ⟨["docs", "report.pdf"]⟩

/-- A second sample attachment path `data/img.png`. -/
def pathImg : FsPath := ⟨["data", "img.png"]⟩

/-- A file system holding the two sample attachment files. -/
def fsTwoFiles : FileSys := fun p =>
  if p = pathReport then some [37, 80, 68, 70]
  else if p = pathImg then some [137, 80, 78, 71]
  else none

/-- A tool configured with the default server and port. -/
def cfgDefault : AsyncGmailTool := AsyncGmailTool.init "user@gmail.com" "app-password"

/-- A tool constructed with an overridden, non-standard port. -/
def cfgPortOverride : AsyncGmailTool :=
  ⟨"user@gmail.com", "app-password", "smtp.gmail.com", 2525⟩

/-- A scheduler state holding one pending job with identifier `job0`. -/
def schedOne : SchedulerState :=
  ⟨[⟨"job0", 1700000000, ["a@b.com"], "s", "b", false⟩], 1⟩

/-- A message built from zero attachments, used to instantiate theorems. -/
def msgNoAtt : MIMEMultipart :=
  ⟨"user@gmail.com", "a@b.com", "s", [MIMEPart.text "b" "plain" "utf-8"]⟩

/-- A timezone database recognizing no name at all. -/
def tzdbEmpty : TzDb := fun _ => none

/-- A schedule request naming an unrecognized timezone. -/
def reqBadTz : ScheduledEmailRequest :=
  ⟨["a@b.com"], "s", "b", false, 1000, "Bad/Zone"⟩

theorem runOps_cons_some (ev : Event) (e : Exc) (rest : List OpSpec) :
    runOps ((ev, some e) :: rest) = ([ev], some e) := rfl

theorem runOps_cons_none (ev : Event) (rest : List OpSpec) :
    runOps ((ev, none) :: rest) = (ev :: (runOps rest).1, (runOps rest).2) := by
  show (match runOps rest with | (evs, r) => (ev :: evs, r)) = _
  rcases runOps rest with ⟨evs, r⟩
  rfl

theorem mem_runOps (ops : List OpSpec) (ev : Event) (h : ev ∈ (runOps ops).1) :
    ∃ r, (ev, r) ∈ ops := by
  induction ops with
  | nil => simp [runOps] at h
  | cons op rest ih =>
    obtain ⟨ev0, res⟩ := op
    cases res with
    | none =>
      rw [runOps_cons_none] at h
      rcases List.mem_cons.mp h with h1 | h2
      · exact ⟨none, by simp [h1]⟩
      · obtain ⟨r, hr⟩ := ih h2
        exact ⟨r, List.mem_cons_of_mem _ hr⟩
    | some e =>
      rw [runOps_cons_some] at h
      simp at h
      exact ⟨some e, by simp [h]⟩

theorem mem_primary_events (net : Net) (ev : Event)
    (h : ev ∈ (runOps (primaryOps net)).1) :
    ev = Event.connect 0 ∨ ev = Event.login 0 ∨ ev = Event.sendMessage 0 := by
  obtain ⟨r, hr⟩ := mem_runOps _ _ h
  simp [primaryOps, Prod.ext_iff] at hr
  tauto

theorem mem_fallback_events (net : Net) (ev : Event)
    (h : ev ∈ (runOps (fallbackOps net)).1) :
    ev = Event.connect 1 ∨ ev = Event.starttls 1 sslContextId ∨
      ev = Event.login 1 ∨ ev = Event.sendMessage 1 := by
  obtain ⟨r, hr⟩ := mem_runOps _ _ h
  simp [fallbackOps, Prod.ext_iff] at hr
  tauto

theorem filter_isCreated_primary (net : Net) :
    ((runOps (primaryOps net)).1.filter Event.isCreated) = [] := by
  rw [List.filter_eq_nil_iff]
  intro ev hev
  rcases mem_primary_events net ev hev with h | h | h <;> simp [h, Event.isCreated]

theorem filter_isCreated_fallback (net : Net) :
    ((runOps (fallbackOps net)).1.filter Event.isCreated) = [] := by
  rw [List.filter_eq_nil_iff]
  intro ev hev
  rcases mem_fallback_events net ev hev with h | h | h | h <;> simp [h, Event.isCreated]

theorem filter_isQuit_primary (net : Net) :
    ((runOps (primaryOps net)).1.filter Event.isQuit) = [] := by
  rw [List.filter_eq_nil_iff]
  intro ev hev
  rcases mem_primary_events net ev hev with h | h | h <;> simp [h, Event.isQuit]

theorem filter_isQuit_fallback (net : Net) :
    ((runOps (fallbackOps net)).1.filter Event.isQuit) = [] := by
  rw [List.filter_eq_nil_iff]
  intro ev hev
  rcases mem_fallback_events net ev hev with h | h | h | h <;> simp [h, Event.isQuit]

theorem quitEvs_eq (net : Net) (k : Nat) : quitEvs net k = [Event.quit k] := by
  unfold quitEvs
  cases net.quitRes k <;> rfl

theorem deliverCore_primary_ok (cfg : AsyncGmailTool) (net : Net)
    (h : primaryOutcome net = none) :
    deliverCore cfg net
      = .ok (true, Event.created 0 (primaryParams cfg.smtp_server)
              :: ((runOps (primaryOps net)).1 ++ [Event.quit 0])) := by
  unfold primaryOutcome at h
  simp only [deliverCore, h, quitEvs_eq, List.cons_append]

theorem deliverCore_primary_other (cfg : AsyncGmailTool) (net : Net)
    (h : primaryOutcome net = some Exc.other) :
    deliverCore cfg net
      = .ok (false, Event.created 0 (primaryParams cfg.smtp_server)
              :: ((runOps (primaryOps net)).1 ++ [Event.quit 0])) := by
  unfold primaryOutcome at h
  simp only [deliverCore, h, quitEvs_eq, List.cons_append]

theorem deliverCore_fallback_ok (cfg : AsyncGmailTool) (net : Net)
    (h : primaryOutcome net = some Exc.smtp) (h2 : fallbackOutcome net = none) :
    deliverCore cfg net
      = .ok (true, Event.created 0 (primaryParams cfg.smtp_server)
              :: ((runOps (primaryOps net)).1
                 ++ (Event.created 1 (fallbackParams cfg.smtp_server)
                     :: ((runOps (fallbackOps net)).1 ++ [Event.quit 1])))) := by
  unfold primaryOutcome at h
  unfold fallbackOutcome at h2
  simp only [deliverCore, h, h2, quitEvs_eq, List.cons_append]

theorem deliverCore_fallback_err (cfg : AsyncGmailTool) (net : Net) (e : Exc)
    (h : primaryOutcome net = some Exc.smtp) (h2 : fallbackOutcome net = some e) :
    deliverCore cfg net
      = .error (e, Event.created 0 (primaryParams cfg.smtp_server)
              :: ((runOps (primaryOps net)).1
                 ++ (Event.created 1 (fallbackParams cfg.smtp_server)
                     :: ((runOps (fallbackOps net)).1 ++ [Event.quit 1])))) := by
  unfold primaryOutcome at h
  unfold fallbackOutcome at h2
  simp only [deliverCore, h, h2, quitEvs_eq, List.cons_append]

theorem deliverCore_quitRes_invariant (cfg : AsyncGmailTool) (net : Net)
    (q : Nat → Option Exc) :
    deliverCore cfg { net with quitRes := q } = deliverCore cfg net := by
  simp only [deliverCore, quitEvs_eq, primaryOps, fallbackOps]

theorem attachParts_all_some (fs : FileSys) (l : List FsPath)
    (h : ∀ p ∈ l, (fs p).isSome) :
    attachParts fs l
      = .ok (l.map (fun p => MIMEPart.application ((fs p).getD []) (FsPath.name p))) := by
  induction l with
  | nil => rfl
  | cons p rest ih =>
    have hp : (fs p).isSome := h p (List.mem_cons_self p rest)
    obtain ⟨bytes, hb⟩ := Option.isSome_iff_exists.mp hp
    have ih2 := ih (fun q hq => h q (List.mem_cons_of_mem _ hq))
    simp [attachParts, hb, ih2]

theorem attachParts_error_of_missing (fs : FileSys) (l : List FsPath) (p : FsPath)
    (hp : p ∈ l) (hbad : fs p = none) :
    ∃ e, attachParts fs l = .error e := by
  induction l with
  | nil => cases hp
  | cons q rest ih =>
    rcases List.mem_cons.mp hp with h1 | h2
    · subst h1
      exact ⟨Exc.other, by simp [attachParts, hbad]⟩
    · cases hq : fs q with
      | none => exact ⟨Exc.other, by simp [attachParts, hq]⟩
      | some bytes =>
        obtain ⟨e, he⟩ := ih h2
        exact ⟨e, by simp [attachParts, hq, he]⟩

/-- Claim C6: for every request with zero attachments (Python `None` or an empty
list, both of which skip the attachment loop), the built message carries
exactly one body part, `MIMEText(body, "html" if is_html else "plain",
"utf-8")` — i.e. content type text/html when `is_html` and text/plain
otherwise, with charset UTF-8. -/
theorem c6_zero_attachments_single_body_part (fs : FileSys) (u : String)
    (tos : List String) (subj bod : String) (html : Bool) :
    buildMessage fs u tos subj bod html none
      = .ok ⟨u, String.intercalate ", " tos, subj,
             [MIMEPart.text bod (if html then "html" else "plain") "utf-8"]⟩ ∧
    buildMessage fs u tos subj bod html (some [])
      = .ok ⟨u, String.intercalate ", " tos, subj,
             [MIMEPart.text bod (if html then "html" else "plain") "utf-8"]⟩ :=
  ⟨rfl, rfl⟩

/-- Claim C7: for every attachment list whose paths all refer to readable files,
the built message is the single body part followed by one binary part per
attachment, in the order given, each carrying the full contents of the file and
a `Content-Disposition: attachment` filename equal to the base name of the path
(`Path.name`), not the full path. -/
theorem c7_attachment_parts (fs : FileSys) (u : String) (tos : List String)
    (subj bod : String) (html : Bool) (l : List FsPath)
    (h : ∀ p ∈ l, (fs p).isSome) :
    buildMessage fs u tos subj bod html (some l)
      = .ok ⟨u, String.intercalate ", " tos, subj,
             MIMEPart.text bod (if html then "html" else "plain") "utf-8"
               :: l.map (fun p => MIMEPart.application ((fs p).getD []) (FsPath.name p))⟩ := by
  simp [buildMessage, attachParts_all_some fs l h]

/-- Witness for C7 at a concrete two-attachment input: the parts carry the
bytes of `docs/report.pdf` and `data/img.png` in order, with base names
`report.pdf` and `img.png` as filenames. -/
theorem c7_witness :
    buildMessage fsTwoFiles "user@gmail.com" ["a@b.com"] "s" "b" false
        (some [pathReport, pathImg])
      = .ok ⟨"user@gmail.com", "a@b.com", "s",
             [MIMEPart.text "b" "plain" "utf-8",
              MIMEPart.application [37, 80, 68, 70] "report.pdf",
              MIMEPart.application [137, 80, 78, 71] "img.png"]⟩ := by
  rw [c7_attachment_parts fsTwoFiles "user@gmail.com" ["a@b.com"] "s" "b" false
        [pathReport, pathImg] (by decide)]
  rfl

/-- Claim C3: whenever the attachment list contains a path with no readable file,
`send_email` returns `False` with an empty event trace: no connection
object is ever created, no connect is attempted, and no message survives
(the build fails before the delivery phase begins). -/
theorem c3_missing_attachment_no_connection (cfg : AsyncGmailTool) (net : Net)
    (fs : FileSys) (tos : List String) (subj bod : String) (html : Bool)
    (l : List FsPath) (p : FsPath) (hp : p ∈ l) (hbad : fs p = none) :
    send_email cfg net fs tos subj bod html (some l) = ⟨false, [], none⟩ := by
  obtain ⟨e, he⟩ := attachParts_error_of_missing fs l p hp hbad
  simp [send_email, sendEmailCore, buildMessage, he]

/-- Witness for C3: a send with the missing `docs/report.pdf` attachment
returns `False` and produces no connection events. -/
theorem c3_witness :
    send_email cfgDefault netOk fsEmpty ["a@b.com"] "s" "b" false
        (some [pathReport]) = ⟨false, [], none⟩ :=
  c3_missing_attachment_no_connection cfgDefault netOk fsEmpty ["a@b.com"] "s" "b"
    false [pathReport] pathReport (by decide) (by rfl)

/-- Claim C2: `send_email` is a total function into `SendResult` (its boolean is
the Python return value — no exceptional outcome exists in its type), and
whenever the try body `sendEmailCore` raises — a fault in message
construction or one escaping the delivery phase — the outer
`except Exception` handler converts it into the return value `False`. -/
theorem c2_exception_converted_to_false (cfg : AsyncGmailTool) (net : Net)
    (fs : FileSys) (tos : List String) (subj bod : String) (html : Bool)
    (atts : Option (List FsPath)) (e : Exc) (evs : List Event)
    (h : sendEmailCore cfg net fs tos subj bod html atts = .error (e, evs)) :
    (send_email cfg net fs tos subj bod html atts).result = false := by
  simp [send_email, h]

/-- Witness for C2: with a missing attachment file the try body raises a
non-SMTP exception, and the call returns `False`. -/
theorem c2_witness :
    (send_email cfgDefault netOk fsEmpty ["a@b.com"] "s" "b" false
        (some [pathReport])).result = false :=
  c2_exception_converted_to_false cfgDefault netOk fsEmpty ["a@b.com"] "s" "b"
    false (some [pathReport]) Exc.other [] (by rfl)

theorem starttls_mem_fallback (net : Net) (h : net.connectRes 1 = none) :
    Event.starttls 1 sslContextId ∈ (runOps (fallbackOps net)).1 := by
  cases hs : net.starttlsRes 1 <;>
    simp [fallbackOps, h, hs, runOps_cons_none, runOps_cons_some]

theorem filter_isCreated_fallback_trace (cfg : AsyncGmailTool) (net : Net) :
    ((Event.created 0 (primaryParams cfg.smtp_server)
        :: ((runOps (primaryOps net)).1
           ++ (Event.created 1 (fallbackParams cfg.smtp_server)
               :: ((runOps (fallbackOps net)).1 ++ [Event.quit 1])))).filter
        Event.isCreated)
      = [Event.created 0 (primaryParams cfg.smtp_server),
         Event.created 1 (fallbackParams cfg.smtp_server)] := by
  simp [List.filter_append, filter_isCreated_primary, filter_isCreated_fallback,
    Event.isCreated]

/-- Claim C1: whenever the message was built and the primary port-465 attempt
raises `SMTPException`, exactly two connections are ever created — the
primary and one fallback to the same host on port 587 (no third attempt);
the fallback issues `starttls` with the same TLS context the primary
connection was created with (once its connect succeeds); and the call
returns `True` exactly when every fallback operation succeeds, `False`
when any of them raises. -/
theorem c1_fallback_attempted_exactly_once (cfg : AsyncGmailTool) (net : Net)
    (fs : FileSys) (tos : List String) (subj bod : String) (html : Bool)
    (atts : Option (List FsPath)) (msg : MIMEMultipart)
    (hbuild : buildMessage fs cfg.smtp_username tos subj bod html atts = .ok msg)
    (hprim : primaryOutcome net = some Exc.smtp) :
    ((send_email cfg net fs tos subj bod html atts).events.filter Event.isCreated
        = [Event.created 0 (primaryParams cfg.smtp_server),
           Event.created 1 (fallbackParams cfg.smtp_server)]) ∧
    (net.connectRes 1 = none →
      Event.starttls 1 sslContextId
        ∈ (send_email cfg net fs tos subj bod html atts).events) ∧
    ((send_email cfg net fs tos subj bod html atts).result = true
        ↔ fallbackOutcome net = none) := by
  rcases hf : fallbackOutcome net with _ | e
  · have hd := deliverCore_fallback_ok cfg net hprim hf
    simp only [send_email, sendEmailCore, hbuild, hd]
    refine ⟨filter_isCreated_fallback_trace cfg net, fun hc => ?_, by simp⟩
    have := starttls_mem_fallback net hc
    simp [List.mem_append, this]
  · have hd := deliverCore_fallback_err cfg net e hprim hf
    simp only [send_email, sendEmailCore, hbuild, hd]
    refine ⟨filter_isCreated_fallback_trace cfg net, fun hc => ?_, by simp⟩
    have := starttls_mem_fallback net hc
    simp [List.mem_append, this]

/-- Witness for C1: with the primary connect raising `SMTPException` and a
healthy fallback, the run creates exactly the two connections, issues
`starttls` with the shared context, and returns `True`. -/
theorem c1_witness :
    ((send_email cfgDefault netPrimarySmtpFail fsEmpty ["a@b.com"] "s" "b" false
          none).events.filter Event.isCreated
        = [Event.created 0 (primaryParams cfgDefault.smtp_server),
           Event.created 1 (fallbackParams cfgDefault.smtp_server)]) ∧
    (netPrimarySmtpFail.connectRes 1 = none →
      Event.starttls 1 sslContextId
        ∈ (send_email cfgDefault netPrimarySmtpFail fsEmpty ["a@b.com"] "s" "b"
            false none).events) ∧
    ((send_email cfgDefault netPrimarySmtpFail fsEmpty ["a@b.com"] "s" "b" false
          none).result = true
        ↔ fallbackOutcome netPrimarySmtpFail = none) :=
  c1_fallback_attempted_exactly_once cfgDefault netPrimarySmtpFail fsEmpty
    ["a@b.com"] "s" "b" false none msgNoAtt (by rfl) (by rfl)

/-- Claim C10: on the fallback path the session variable is rebound to the new
port-587 connection before any fallback operation, so the `finally`
teardown quits only the most recently created connection: the primary
connection never receives a quit, and the only quit event of the whole
trace targets the fallback connection. -/
theorem c10_quit_only_latest_connection (cfg : AsyncGmailTool) (net : Net)
    (fs : FileSys) (tos : List String) (subj bod : String) (html : Bool)
    (atts : Option (List FsPath)) (msg : MIMEMultipart)
    (hbuild : buildMessage fs cfg.smtp_username tos subj bod html atts = .ok msg)
    (hprim : primaryOutcome net = some Exc.smtp) :
    Event.quit 0 ∉ (send_email cfg net fs tos subj bod html atts).events ∧
    ((send_email cfg net fs tos subj bod html atts).events.filter Event.isQuit
        = [Event.quit 1]) := by
  have hmain : ∀ l : List Event,
      l = Event.created 0 (primaryParams cfg.smtp_server)
            :: ((runOps (primaryOps net)).1
               ++ (Event.created 1 (fallbackParams cfg.smtp_server)
                   :: ((runOps (fallbackOps net)).1 ++ [Event.quit 1]))) →
      Event.quit 0 ∉ l ∧ l.filter Event.isQuit = [Event.quit 1] := by
    intro l hl
    subst hl
    constructor
    · intro hmem
      simp at hmem
      rcases hmem with h | h
      · rcases mem_primary_events net _ h with h1 | h1 | h1 <;> simp at h1
      · rcases mem_fallback_events net _ h with h1 | h1 | h1 | h1 <;> simp at h1
    · simp [List.filter_append, filter_isQuit_primary, filter_isQuit_fallback,
        Event.isQuit]
  rcases hf : fallbackOutcome net with _ | e
  · have hd := deliverCore_fallback_ok cfg net hprim hf
    simp only [send_email, sendEmailCore, hbuild, hd]
    exact hmain _ rfl
  · have hd := deliverCore_fallback_err cfg net e hprim hf
    simp only [send_email, sendEmailCore, hbuild, hd]
    exact hmain _ rfl

/-- Witness for C10: in the concrete fallback run the primary connection
gets no quit and the single teardown goes to connection 1. -/
theorem c10_witness :
    Event.quit 0 ∉ (send_email cfgDefault netPrimarySmtpFail fsEmpty ["a@b.com"]
        "s" "b" false none).events ∧
    ((send_email cfgDefault netPrimarySmtpFail fsEmpty ["a@b.com"] "s" "b" false
          none).events.filter Event.isQuit = [Event.quit 1]) :=
  c10_quit_only_latest_connection cfgDefault netPrimarySmtpFail fsEmpty
    ["a@b.com"] "s" "b" false none msgNoAtt (by rfl) (by rfl)

theorem getLast?_cons_append_concat (a x : Event) (l : List Event) :
    (a :: (l ++ [x])).getLast? = some x := by
  rw [← List.cons_append]
  exact List.getLast?_concat _

theorem getLast?_fallback_trace (a b x : Event) (l1 l2 : List Event) :
    (a :: (l1 ++ (b :: (l2 ++ [x])))).getLast? = some x := by
  simp only [← List.cons_append, ← List.append_assoc]
  exact List.getLast?_concat _

/-- Claim C4: once the delivery phase is entered (the message was built), every
exit path — primary success, generic non-SMTP fault, fallback success or
fallback failure — ends with a `quit` teardown as its last event, and the
outcomes of the `quit` operations themselves (the `quitRes` component of
the oracle) never change the returned boolean. -/
theorem c4_teardown_on_every_path (cfg : AsyncGmailTool) (net : Net)
    (q : Nat → Option Exc) (fs : FileSys) (tos : List String)
    (subj bod : String) (html : Bool) (atts : Option (List FsPath))
    (msg : MIMEMultipart)
    (hbuild : buildMessage fs cfg.smtp_username tos subj bod html atts = .ok msg) :
    (∃ k, (send_email cfg net fs tos subj bod html atts).events.getLast?
        = some (Event.quit k)) ∧
    (send_email cfg { net with quitRes := q } fs tos subj bod html atts).result
      = (send_email cfg net fs tos subj bod html atts).result := by
  constructor
  · rcases hp : primaryOutcome net with _ | e
    · have hd := deliverCore_primary_ok cfg net hp
      simp only [send_email, sendEmailCore, hbuild, hd]
      exact ⟨0, getLast?_cons_append_concat _ _ _⟩
    · cases e with
      | other =>
        have hd := deliverCore_primary_other cfg net hp
        simp only [send_email, sendEmailCore, hbuild, hd]
        exact ⟨0, getLast?_cons_append_concat _ _ _⟩
      | smtp =>
        rcases hf : fallbackOutcome net with _ | e2
        · have hd := deliverCore_fallback_ok cfg net hp hf
          simp only [send_email, sendEmailCore, hbuild, hd]
          exact ⟨1, getLast?_fallback_trace _ _ _ _ _⟩
        · have hd := deliverCore_fallback_err cfg net e2 hp hf
          simp only [send_email, sendEmailCore, hbuild, hd]
          exact ⟨1, getLast?_fallback_trace _ _ _ _ _⟩
  · have hd := deliverCore_quitRes_invariant cfg net q
    simp only [send_email, sendEmailCore, hbuild, hd]

/-- Witness for C4: a healthy run whose teardown raises on every quit
still returns the same `True`, and its trace ends in a quit event. -/
theorem c4_witness :
    (∃ k, (send_email cfgDefault netOk fsEmpty ["a@b.com"] "s" "b" false
        none).events.getLast? = some (Event.quit k)) ∧
    (send_email cfgDefault { netOk with quitRes := fun _ => some Exc.other }
        fsEmpty ["a@b.com"] "s" "b" false none).result
      = (send_email cfgDefault netOk fsEmpty ["a@b.com"] "s" "b" false
          none).result :=
  c4_teardown_on_every_path cfgDefault netOk (fun _ => some Exc.other) fsEmpty
    ["a@b.com"] "s" "b" false none msgNoAtt (by rfl)

theorem created_mem_primary_trace (cfg : AsyncGmailTool) (net : Net) (k : Nat)
    (p : ConnParams)
    (h : Event.created k p ∈ Event.created 0 (primaryParams cfg.smtp_server)
          :: ((runOps (primaryOps net)).1 ++ [Event.quit 0])) :
    p.hostname = cfg.smtp_server ∧ (p.port = 465 ∨ p.port = 587) := by
  simp at h
  rcases h with ⟨hk, hp⟩ | h
  · subst hp
    simp [primaryParams]
  · rcases mem_primary_events net _ h with h1 | h1 | h1 <;> simp at h1

theorem created_mem_fallback_trace (cfg : AsyncGmailTool) (net : Net) (k : Nat)
    (p : ConnParams)
    (h : Event.created k p ∈ Event.created 0 (primaryParams cfg.smtp_server)
          :: ((runOps (primaryOps net)).1
             ++ (Event.created 1 (fallbackParams cfg.smtp_server)
                 :: ((runOps (fallbackOps net)).1 ++ [Event.quit 1])))) :
    p.hostname = cfg.smtp_server ∧ (p.port = 465 ∨ p.port = 587) := by
  simp at h
  rcases h with ⟨hk, hp⟩ | h | ⟨hk, hp⟩ | h
  · subst hp
    simp [primaryParams]
  · rcases mem_primary_events net _ h with h1 | h1 | h1 <;> simp at h1
  · subst hp
    simp [fallbackParams]
  · rcases mem_fallback_events net _ h with h1 | h1 | h1 | h1 <;> simp at h1

/-- Claim C5 (amended): every connection object created by `send_email` uses the
construction-time `smtp_server` as its hostname, but its port is one of
the fixed constants 465 (primary) or 587 (fallback) — the stored
`smtp_port` field is never consulted by the connection attempts. -/
theorem c5_hostname_used_ports_fixed (cfg : AsyncGmailTool) (net : Net)
    (fs : FileSys) (tos : List String) (subj bod : String) (html : Bool)
    (atts : Option (List FsPath)) (k : Nat) (p : ConnParams)
    (h : Event.created k p ∈ (send_email cfg net fs tos subj bod html atts).events) :
    p.hostname = cfg.smtp_server ∧ (p.port = 465 ∨ p.port = 587) := by
  rcases hb : buildMessage fs cfg.smtp_username tos subj bod html atts with e | msg
  · simp [send_email, sendEmailCore, hb] at h
  · rcases hp : primaryOutcome net with _ | e
    · have hd := deliverCore_primary_ok cfg net hp
      simp only [send_email, sendEmailCore, hb, hd] at h
      exact created_mem_primary_trace cfg net k p h
    · cases e with
      | other =>
        have hd := deliverCore_primary_other cfg net hp
        simp only [send_email, sendEmailCore, hb, hd] at h
        exact created_mem_primary_trace cfg net k p h
      | smtp =>
        rcases hf : fallbackOutcome net with _ | e2
        · have hd := deliverCore_fallback_ok cfg net hp hf
          simp only [send_email, sendEmailCore, hb, hd] at h
          exact created_mem_fallback_trace cfg net k p h
        · have hd := deliverCore_fallback_err cfg net e2 hp hf
          simp only [send_email, sendEmailCore, hb, hd] at h
          exact created_mem_fallback_trace cfg net k p h

/-- Witness for C5 (amended): the primary connection of a healthy default
run uses the configured hostname and port 465. -/
theorem c5_witness :
    (primaryParams cfgDefault.smtp_server).hostname = cfgDefault.smtp_server ∧
    ((primaryParams cfgDefault.smtp_server).port = 465 ∨
      (primaryParams cfgDefault.smtp_server).port = 587) :=
  c5_hostname_used_ports_fixed cfgDefault netOk fsEmpty ["a@b.com"] "s" "b" false
    none 0 (primaryParams cfgDefault.smtp_server) (by decide)

/-- Counterexample for C5 as stated: a tool constructed with
`smtp_port = 2525` still connects on port 465 — the trace of a healthy run
contains the port-465 creation and never a creation with the overridden
port, so overriding the port does not change which port is used. -/
theorem c5_counterexample :
    cfgPortOverride.smtp_port = 2525 ∧
    (send_email cfgPortOverride netOk fsEmpty ["a@b.com"] "s" "b" false
          none).events
      = [Event.created 0 ⟨"smtp.gmail.com", 465, true, some sslContextId, 30⟩,
         Event.connect 0, Event.login 0, Event.sendMessage 0, Event.quit 0] ∧
    Event.created 0 ⟨cfgPortOverride.smtp_server, cfgPortOverride.smtp_port,
          true, some sslContextId, 30⟩
      ∉ (send_email cfgPortOverride netOk fsEmpty ["a@b.com"] "s" "b" false
          none).events := by
  refine ⟨rfl, by decide, by decide⟩

/-- Claim C8 (amended): for an unrecognized timezone name `pytz.timezone` raises,
so `schedule_email` adds no job (the scheduler state is returned
unchanged) and the catch-all handler reports the failure as an
`HTTPException` with status 500 — a server-error response, not a
client-error (4xx) response. -/
theorem c8_unknown_timezone_rejected (tzdb : TzDb) (st : SchedulerState)
    (req : ScheduledEmailRequest) (h : tzdb req.timezone = none) :
    schedule_email tzdb st req
      = (ApiResponse.httpError 500 ("Scheduling email failed: " ++ req.timezone),
         st) ∧
    ¬ isClientError 500 := by
  constructor
  · simp [schedule_email, h]
  · simp [isClientError]

/-- Witness for C8 (amended): scheduling against the unknown `Bad/Zone`
leaves the one-job table untouched and answers with status 500. -/
theorem c8_witness :
    schedule_email tzdbEmpty schedOne reqBadTz
      = (ApiResponse.httpError 500
          ("Scheduling email failed: " ++ reqBadTz.timezone), schedOne) ∧
    ¬ isClientError 500 :=
  c8_unknown_timezone_rejected tzdbEmpty schedOne reqBadTz (by rfl)

/-- Counterexample for C8 as stated: at the concrete unrecognized timezone
`Bad/Zone` the endpoint does fail without adding a job, but the response
status is 500, which is not a client-error response. -/
theorem c8_counterexample :
    (schedule_email tzdbEmpty schedOne reqBadTz).2 = schedOne ∧
    (schedule_email tzdbEmpty schedOne reqBadTz).1
      = ApiResponse.httpError 500 "Scheduling email failed: Bad/Zone" ∧
    ¬ isClientError 500 := by
  refine ⟨by decide, by decide, by simp [isClientError]⟩

/-- Claim C9: cancelling resolves through `get_job`: when no pending job carries
the identifier the endpoint answers 404 Task not found — a client-error,
not an internal fault — and leaves the table unchanged; when the job is
pending it is removed by `remove_job` (afterwards no job with that
identifier remains) and the endpoint reports Task canceled. -/
theorem c9_cancel_found_semantics (st : SchedulerState) (jid : String) :
    (cancel_scheduled_job st jid
      = if st.jobs.any (fun j => j.id == jid)
        then (ApiResponse.success "Task canceled" none, remove_job st jid)
        else (ApiResponse.httpError 404 "Task not found", st)) ∧
    isClientError 404 ∧
    (remove_job st jid).jobs.all (fun j => !(j.id == jid)) = true := by
  refine ⟨?_, by simp [isClientError], ?_⟩
  · cases ha : st.jobs.any (fun j => j.id == jid) with
    | true =>
      obtain ⟨j, hj, hid⟩ := List.any_eq_true.mp ha
      cases hf : get_job st jid with
      | none =>
        rw [get_job, List.find?_eq_none] at hf
        exact absurd hid (hf j hj)
      | some j2 =>
        simp [cancel_scheduled_job, hf]
    | false =>
      have hf : get_job st jid = none := by
        rw [get_job, List.find?_eq_none]
        exact List.any_eq_false.mp ha
      simp [cancel_scheduled_job, hf]
  · rw [List.all_eq_true]
    intro j hj
    exact (List.mem_filter.mp hj).2
